import Mathlib

/-!
# Verification of the ASCII globe particle animation

A shallow embedding of `src/scripts/ascii-globe.js`: a rotating sphere of
glyph particles with pointer repulsion, spring return, friction damping,
depth sorting and a visibility cull.  JavaScript numbers are modelled as
real numbers; every call to `Math.random()` is passed in explicitly as an
oracle argument, so all definitions are deterministic functions of their
inputs.
-/

namespace AsciiGlobe

noncomputable section

/-! ## Configuration constants (ascii-globe.js lines 23–30) -/

def GLOBE_CHARS : List Char := ['@', '#', '*', '+', '=', '-', ':', '.', 'o', 'O', '0', '%', '&']

def POINT_COUNT : ℕ := 600

def GLOBE_RADIUS : ℝ := 110

def ROTATION_SPEED : ℝ := 0.002

def MOUSE_RADIUS : ℝ := 100

def REPEL_STRENGTH : ℝ := 25

def RETURN_SPEED : ℝ := 0.06

def FRICTION : ℝ := 0.88

/-- `Math.atan2 y x`: the argument of the complex number `x + y·i`,
in `(-π, π]`, with `atan2 0 0 = 0`, matching JavaScript. -/
def atan2 (y x : ℝ) : ℝ := Complex.arg ⟨x, y⟩

/-! ## The particle record (ascii-globe.js lines 40–55) -/

structure Particle where
  theta : ℝ
  phi : ℝ
  char : Char
  x : ℝ
  y : ℝ
  targetX : ℝ
  targetY : ℝ
  vx : ℝ
  vy : ℝ
  baseSize : ℝ
  depth : ℝ
  originalTheta : ℝ
  originalPhi : ℝ

/-- The `Particle` constructor.  `charIdx` stands for the draw
`Math.floor(Math.random() * GLOBE_CHARS.length)` (reduced mod the list
length so it is in range), `sizeRnd` for the draw `Math.random()` used in
`baseSize = 8 + Math.random() * 6`. -/
def Particle.make (theta phi : ℝ) (charIdx : ℕ) (sizeRnd : ℝ) : Particle :=
  { theta := theta
    phi := phi
    char := (GLOBE_CHARS.getD (charIdx % GLOBE_CHARS.length) ' ')
    x := 0
    y := 0
    targetX := 0
    targetY := 0
    vx := 0
    vy := 0
    baseSize := 8 + sizeRnd * 6
    depth := 0
    originalTheta := theta
    originalPhi := phi }

/-! ## Per-frame update (ascii-globe.js lines 57–102)

`Particle.update` is the straight-line translation of the `update`
method: `width`, `height`, `mouseX`, `mouseY` and `isMouseInCanvas`
(`act`) are the globals it reads, `rnd` is the `Math.random()` draw used
for the jitter of the repulsion angle. -/

def Particle.update (p : Particle) (rotationY width height mouseX mouseY : ℝ)
    (act : Bool) (rnd : ℝ) : Particle :=
  let x3d := GLOBE_RADIUS * Real.sin p.phi * Real.cos (p.theta + rotationY)
  let y3d := GLOBE_RADIUS * Real.cos p.phi
  let z3d := GLOBE_RADIUS * Real.sin p.phi * Real.sin (p.theta + rotationY)
  let perspective : ℝ := 350
  let scale := perspective / (perspective + z3d + GLOBE_RADIUS)
  let targetX := width / 2 + x3d * scale
  let targetY := height / 2 + y3d * scale
  let depth := z3d
  let dx := p.x - mouseX
  let dy := p.y - mouseY
  let dist := Real.sqrt (dx * dx + dy * dy)
  let repelVel : ℝ × ℝ :=
    if act then
      if dist < MOUSE_RADIUS ∧ dist > 0 then
        let force := ((MOUSE_RADIUS - dist) / MOUSE_RADIUS) ^ 2 * REPEL_STRENGTH
        let angle := atan2 dy dx
        let randomAngle := angle + (rnd - 0.5) * 0.5
        (p.vx + Real.cos randomAngle * force, p.vy + Real.sin randomAngle * force)
      else (p.vx, p.vy)
    else (p.vx, p.vy)
  let springX := (targetX - p.x) * RETURN_SPEED
  let springY := (targetY - p.y) * RETURN_SPEED
  let vx1 := repelVel.1 + springX
  let vy1 := repelVel.2 + springY
  let vx2 := vx1 * FRICTION
  let vy2 := vy1 * FRICTION
  { p with targetX := targetX, targetY := targetY, depth := depth,
           vx := vx2, vy := vy2, x := p.x + vx2, y := p.y + vy2 }

/-! ## The four phases of the update, as separate steps.

These isolate the successive mutations performed by `update`: projection
of the rotated sphere point (writes `targetX`/`targetY`/`depth` only),
pointer repulsion (writes velocity only, reading the particle's current
position), spring impulse toward the target (writes velocity only),
friction (scales velocity), integration (adds velocity to position). -/

def Particle.project (p : Particle) (rotationY width height : ℝ) : Particle :=
  let x3d := GLOBE_RADIUS * Real.sin p.phi * Real.cos (p.theta + rotationY)
  let y3d := GLOBE_RADIUS * Real.cos p.phi
  let z3d := GLOBE_RADIUS * Real.sin p.phi * Real.sin (p.theta + rotationY)
  let perspective : ℝ := 350
  let scale := perspective / (perspective + z3d + GLOBE_RADIUS)
  { p with targetX := width / 2 + x3d * scale
           targetY := height / 2 + y3d * scale
           depth := z3d }

def Particle.repel (p : Particle) (mouseX mouseY : ℝ) (act : Bool) (rnd : ℝ) : Particle :=
  if act then
    let dx := p.x - mouseX
    let dy := p.y - mouseY
    let dist := Real.sqrt (dx * dx + dy * dy)
    if dist < MOUSE_RADIUS ∧ dist > 0 then
      let force := ((MOUSE_RADIUS - dist) / MOUSE_RADIUS) ^ 2 * REPEL_STRENGTH
      let angle := atan2 dy dx
      let randomAngle := angle + (rnd - 0.5) * 0.5
      { p with vx := p.vx + Real.cos randomAngle * force
               vy := p.vy + Real.sin randomAngle * force }
    else p
  else p

def Particle.spring (p : Particle) : Particle :=
  { p with vx := p.vx + (p.targetX - p.x) * RETURN_SPEED
           vy := p.vy + (p.targetY - p.y) * RETURN_SPEED }

def Particle.applyFriction (p : Particle) : Particle :=
  { p with vx := p.vx * FRICTION, vy := p.vy * FRICTION }

def Particle.integrate (p : Particle) : Particle :=
  { p with x := p.x + p.vx, y := p.y + p.vy }

/-- The repulsion-free remainder of the per-frame update for a particle
whose target is already set: spring impulse, then friction, then
position integration (ascii-globe.js lines 88–101). -/
def Particle.relax (p : Particle) : Particle :=
  p.spring.applyFriction.integrate

/-! ## Drawing (ascii-globe.js lines 104–129) -/

def Particle.normalizedDepth (p : Particle) : ℝ :=
  (p.depth + GLOBE_RADIUS) / (GLOBE_RADIUS * 2)

def Particle.alpha (p : Particle) : ℝ :=
  max 0.1 (0.15 + p.normalizedDepth * 0.85)

def Particle.size (p : Particle) : ℝ :=
  p.baseSize * (0.4 + p.normalizedDepth * 0.6)

def Particle.displacement (p : Particle) : ℝ :=
  Real.sqrt ((p.x - p.targetX) ^ 2 + (p.y - p.targetY) ^ 2)

def Particle.saturation (p : Particle) : ℝ :=
  max 30 (70 - p.displacement * 0.5)

def Particle.lightness (p : Particle) : ℝ :=
  min 80 (45 + p.normalizedDepth * 25 + p.displacement * 0.3)

/-- One glyph emitted to the canvas by `ctx.fillText` together with the
fill style and font size in effect. -/
structure DrawCmd where
  hue : ℝ
  saturation : ℝ
  lightness : ℝ
  alpha : ℝ
  size : ℝ
  char : Char
  x : ℝ
  y : ℝ

/-- `Particle.draw`: a glyph is emitted only behind the `depth < 30`
visibility cull; otherwise nothing is drawn. -/
def Particle.draw (p : Particle) : Option DrawCmd :=
  if p.depth < 30 then
    some { hue := 43
           saturation := p.saturation
           lightness := p.lightness
           alpha := p.alpha
           size := p.size
           char := p.char
           x := p.x
           y := p.y }
  else none

/-! ## Initialization (ascii-globe.js lines 134–161) -/

/-- `(1 + Math.sqrt(5)) / 2`, the golden number used by the Fibonacci
sphere distribution. -/
def golden : ℝ := (1 + Real.sqrt 5) / 2

/-- Body of the `init` loop for index `i`: the Fibonacci-sphere angles,
construction, and placement at the viewport center. -/
def initParticle (width height : ℝ) (rC : ℕ → ℕ) (rS : ℕ → ℝ) (i : ℕ) : Particle :=
  let theta := 2 * Real.pi * i / golden
  let phi := Real.arccos (1 - 2 * ((i : ℝ) + 0.5) / (POINT_COUNT : ℝ))
  { Particle.make theta phi (rC i) (rS i) with x := width / 2, y := height / 2 }

/-- The particle list created by `init`.  `rC`/`rS` supply the
`Math.random()` draws of the constructor for each index. -/
def globeParticles (width height : ℝ) (rC : ℕ → ℕ) (rS : ℕ → ℝ) : List Particle :=
  (List.range POINT_COUNT).map (initParticle width height rC rS)

/-! ## Pointer state and handlers (ascii-globe.js lines 183–208) -/

structure PointerState where
  mouseX : ℝ
  mouseY : ℝ
  isMouseInCanvas : Bool

def handleMouseMove (_s : PointerState) (clientX clientY rectLeft rectTop : ℝ) :
    PointerState :=
  { mouseX := clientX - rectLeft, mouseY := clientY - rectTop, isMouseInCanvas := true }

def handleMouseLeave (_s : PointerState) : PointerState :=
  { mouseX := -1000, mouseY := -1000, isMouseInCanvas := false }

def handleTouchEnd (_s : PointerState) : PointerState :=
  { mouseX := -1000, mouseY := -1000, isMouseInCanvas := false }

/-! ## The animation frame (ascii-globe.js lines 163–180) -/

/-- `particles.sort((a, b) => a.depth - b.depth)`: sort the collection by
ascending depth. -/
def sortByDepth (ps : List Particle) : List Particle :=
  ps.mergeSort (fun a b => decide (a.depth ≤ b.depth))

/-- One `animate` tick: advance the rotation, update every particle
(`rnds i` is the jitter draw for particle `i`), sort by ascending depth,
and emit the draw commands in that order.  Returns the new particle list,
the new rotation, and the draw list. -/
def animateFrame (ps : List Particle) (rotation width height : ℝ) (s : PointerState)
    (rnds : ℕ → ℝ) : List Particle × ℝ × List (Option DrawCmd) :=
  let rotation2 := rotation + ROTATION_SPEED
  let updated := (List.range ps.length).zip ps |>.map
    (fun ip => ip.2.update rotation2 width height s.mouseX s.mouseY s.isMouseInCanvas (rnds ip.1))
  let sorted := sortByDepth updated
  (sorted, rotation2, sorted.map Particle.draw)

/-! ## `initGlobe` and `init` control flow (ascii-globe.js lines 10–20, 134–161)

The DOM environment is modelled by which objects exist and what geometry
the container reports.  `ctxPresent` is whether
`canvas.getContext('2d')` returned a context (the source never checks
it; `init` calls `ctx.scale(dpr, dpr)`, which raises a TypeError when
`ctx` is null). -/

structure DomEnv where
  canvasPresent : Bool
  ctxPresent : Bool
  containerPresent : Bool
  containerWidth : ℝ
  innerHeight : ℝ

inductive InitOutcome where
  | retryScheduled
  | noop
  | threw
  | ok (width height : ℝ) (particles : List Particle)

/-- `initGlobe` followed by `init()`: missing canvas schedules a retry and
returns; missing container returns; then `init` computes
`width = rect.width || 600`, `height = min 400 (innerHeight * 0.5)`,
sizes the canvas, and calls `ctx.scale` — which throws when the 2d
context is absent — before building the particle list. -/
def initGlobe (env : DomEnv) (rC : ℕ → ℕ) (rS : ℕ → ℝ) : InitOutcome :=
  if env.canvasPresent = false then .retryScheduled
  else if env.containerPresent = false then .noop
  else
    let width := if env.containerWidth = 0 then 600 else env.containerWidth
    let height := min 400 (env.innerHeight * 0.5)
    if env.ctxPresent = false then .threw
    else .ok width height (globeParticles width height rC rS)

/-! ## Basic structure of the update -/

/-- The monolithic `update` is the pipeline of its four phases. -/
theorem update_eq_phases (p : Particle) (rotationY width height mouseX mouseY : ℝ)
    (act : Bool) (rnd : ℝ) :
    p.update rotationY width height mouseX mouseY act rnd =
      ((((p.project rotationY width height).repel mouseX mouseY act rnd).spring).applyFriction).integrate := by
  simp only [Particle.update, Particle.project, Particle.repel, Particle.spring,
    Particle.applyFriction, Particle.integrate]
  cases act with
  | false => rfl
  | true => split_ifs <;> rfl

/-- Projection writes only the target and depth fields. -/
theorem project_preserves (p : Particle) (rotationY width height : ℝ) :
    (p.project rotationY width height).x = p.x ∧
    (p.project rotationY width height).y = p.y ∧
    (p.project rotationY width height).vx = p.vx ∧
    (p.project rotationY width height).vy = p.vy :=
  ⟨rfl, rfl, rfl, rfl⟩

/-- With the pointer flag cleared, the repulsion phase is the identity. -/
theorem repel_inactive (p : Particle) (mouseX mouseY rnd : ℝ) :
    p.repel mouseX mouseY false rnd = p := rfl

/-- C2: each per-frame update mutates velocity and position once, in the
fixed order repulsion impulse (computed against the pre-update position,
which the projection phase leaves untouched) → spring impulse → friction
→ position integration; the position is only touched at the final
integration step, which adds the post-friction velocity to the pre-update
position. -/
theorem C2_update_order (p : Particle) (rotationY width height mouseX mouseY : ℝ)
    (act : Bool) (rnd : ℝ) :
    p.update rotationY width height mouseX mouseY act rnd =
      ((((p.project rotationY width height).repel mouseX mouseY act rnd).spring).applyFriction).integrate ∧
    (p.project rotationY width height).x = p.x ∧
    (p.project rotationY width height).y = p.y ∧
    (p.update rotationY width height mouseX mouseY act rnd).x =
      p.x + (p.update rotationY width height mouseX mouseY act rnd).vx ∧
    (p.update rotationY width height mouseX mouseY act rnd).y =
      p.y + (p.update rotationY width height mouseX mouseY act rnd).vy :=
  ⟨update_eq_phases p rotationY width height mouseX mouseY act rnd, rfl, rfl, rfl, rfl⟩

/-- C4: once the pointer has left (the leave/touch-end handlers clear the
active flag and park the pointer at the (-1000, -1000) sentinel), the
per-frame update contributes no repulsion impulse at all: it coincides
with the repulsion-free pipeline whatever pointer position is stored. -/
theorem C4_inactive_no_repulsion (s : PointerState) (p : Particle)
    (rotationY width height mouseX mouseY rnd : ℝ) :
    (handleMouseLeave s).isMouseInCanvas = false ∧
    (handleTouchEnd s).isMouseInCanvas = false ∧
    (handleMouseLeave s).mouseX = -1000 ∧ (handleMouseLeave s).mouseY = -1000 ∧
    p.repel mouseX mouseY false rnd = p ∧
    p.update rotationY width height mouseX mouseY false rnd =
      (((p.project rotationY width height).spring).applyFriction).integrate := by
  refine ⟨rfl, rfl, rfl, rfl, rfl, ?_⟩
  rw [update_eq_phases, repel_inactive]

/-- C7: a glyph is emitted by `draw` exactly when the particle's depth is
strictly below the visibility threshold 30; at or beyond the threshold
nothing is drawn. -/
theorem C7_visibility_cull (p : Particle) :
    ((p.draw).isSome ↔ p.depth < 30) ∧ ((p.draw) = none ↔ 30 ≤ p.depth) := by
  constructor
  · unfold Particle.draw
    split_ifs with h <;> simp [h]
  · unfold Particle.draw
    split_ifs with h
    · simp [not_le.mpr h]
    · simp [not_lt.mp h]

/-! ## The Fibonacci sphere initializer -/

/-- Reading off an element of the `init` particle list. -/
theorem globeParticles_getElem (width height : ℝ) (rC : ℕ → ℕ) (rS : ℕ → ℝ)
    (i : ℕ) (p : Particle)
    (hi : (globeParticles width height rC rS)[i]? = some p) :
    i < POINT_COUNT ∧ p = initParticle width height rC rS i := by
  unfold globeParticles at hi
  rw [List.getElem?_map] at hi
  by_cases h : i < POINT_COUNT
  · rw [List.getElem?_range h] at hi
    simp only [Option.map_some', Option.some.injEq] at hi
    exact ⟨h, hi.symm⟩
  · rw [List.getElem?_eq_none (by simpa [List.length_range] using not_lt.mp h)] at hi
    simp at hi

/-- The `arccos` argument `1 − 2(i+0.5)/POINT_COUNT` stays strictly
inside `[-1, 1]` for indices below `POINT_COUNT`. -/
theorem initArg_bounds (i : ℕ) (hi : i < POINT_COUNT) :
    -1 < 1 - 2 * ((i:ℝ) + 0.5) / (POINT_COUNT:ℝ) ∧
    1 - 2 * ((i:ℝ) + 0.5) / (POINT_COUNT:ℝ) < 1 := by
  have hN : (POINT_COUNT:ℝ) = 600 := by norm_num [POINT_COUNT]
  have hle : (i:ℝ) ≤ 599 := by
    have : i ≤ 599 := by unfold POINT_COUNT at hi; omega
    exact_mod_cast this
  have h0 : (0:ℝ) ≤ (i:ℝ) := Nat.cast_nonneg i
  rw [hN]
  constructor <;> [nlinarith; nlinarith]

/-- The `arccos` argument is strictly decreasing in the index. -/
theorem initArg_strict_anti (i j : ℕ) (hij : i < j) :
    1 - 2 * ((j:ℝ) + 0.5) / (POINT_COUNT:ℝ) < 1 - 2 * ((i:ℝ) + 0.5) / (POINT_COUNT:ℝ) := by
  have hN : (POINT_COUNT:ℝ) = 600 := by norm_num [POINT_COUNT]
  have : (i:ℝ) < (j:ℝ) := by exact_mod_cast hij
  rw [hN]
  nlinarith

/-- C1 (amended): the initializer assigns
`theta = 2π·i / φ` and `phi = arccos(1 − 2(i+0.5)/N)`; the polar angles
are strictly increasing (hence non-decreasing) in the index, lie within
the closed range `[0, π]` without attaining either endpoint, and no two
particles share an identical `(theta, phi)` pair. -/
theorem C1_fibonacci_sphere (width height : ℝ) (rC : ℕ → ℕ) (rS : ℕ → ℝ)
    (i j : ℕ) (p q : Particle)
    (hi : (globeParticles width height rC rS)[i]? = some p)
    (hj : (globeParticles width height rC rS)[j]? = some q)
    (hij : i < j) :
    p.theta = 2 * Real.pi * i / golden ∧
    p.phi = Real.arccos (1 - 2 * ((i:ℝ) + 0.5) / (POINT_COUNT:ℝ)) ∧
    (0 ≤ p.phi ∧ p.phi ≤ Real.pi) ∧ (0 < p.phi ∧ p.phi < Real.pi) ∧
    p.phi < q.phi ∧
    (p.theta, p.phi) ≠ (q.theta, q.phi) := by
  obtain ⟨hiN, hp⟩ := globeParticles_getElem width height rC rS i p hi
  obtain ⟨hjN, hq⟩ := globeParticles_getElem width height rC rS j q hj
  subst hp
  subst hq
  obtain ⟨hilo, hihi⟩ := initArg_bounds i hiN
  obtain ⟨hjlo, hjhi⟩ := initArg_bounds j hjN
  have hphii : (initParticle width height rC rS i).phi =
      Real.arccos (1 - 2 * ((i:ℝ) + 0.5) / (POINT_COUNT:ℝ)) := rfl
  have hphij : (initParticle width height rC rS j).phi =
      Real.arccos (1 - 2 * ((j:ℝ) + 0.5) / (POINT_COUNT:ℝ)) := rfl
  have hmono : (initParticle width height rC rS i).phi < (initParticle width height rC rS j).phi := by
    rw [hphii, hphij]
    exact Real.strictAntiOn_arccos
      (Set.mem_Icc.mpr ⟨hjlo.le, hjhi.le⟩)
      (Set.mem_Icc.mpr ⟨hilo.le, hihi.le⟩)
      (initArg_strict_anti i j hij)
  refine ⟨rfl, rfl, ⟨Real.arccos_nonneg _, Real.arccos_le_pi _⟩,
    ⟨?_, ?_⟩, hmono, ?_⟩
  · rw [hphii]
    exact Real.arccos_pos.mpr hihi
  · rw [hphii]
    refine lt_of_le_of_ne (Real.arccos_le_pi _) (fun hpi => ?_)
    exact absurd (Real.arccos_eq_pi.mp hpi) (not_le.mpr hilo)
  · intro hEq
    rw [Prod.mk.injEq] at hEq
    exact absurd hEq.2 (ne_of_lt hmono)

/-- C1 counterexample: no particle of the initialized field has polar
angle exactly `0`, and none has polar angle exactly `π` — the polar
angles do not span the closed range `[0, π]` (its endpoints are never
attained). -/
theorem C1_endpoints_not_attained :
    (¬ ∃ p ∈ globeParticles 600 400 (fun _ => 0) (fun _ => 0), p.phi = 0) ∧
    (¬ ∃ p ∈ globeParticles 600 400 (fun _ => 0) (fun _ => 0), p.phi = Real.pi) := by
  constructor
  · rintro ⟨p, hp, hphi⟩
    unfold globeParticles at hp
    rw [List.mem_map] at hp
    obtain ⟨i, hiR, hpi⟩ := hp
    rw [List.mem_range] at hiR
    rw [← hpi] at hphi
    have harg := initArg_bounds i hiR
    have : (0:ℝ) < (initParticle 600 400 (fun _ => 0) (fun _ => 0) i).phi :=
      Real.arccos_pos.mpr harg.2
    exact absurd hphi (ne_of_gt this)
  · rintro ⟨p, hp, hphi⟩
    unfold globeParticles at hp
    rw [List.mem_map] at hp
    obtain ⟨i, hiR, hpi⟩ := hp
    rw [List.mem_range] at hiR
    rw [← hpi] at hphi
    have harg := initArg_bounds i hiR
    exact absurd (Real.arccos_eq_pi.mp hphi) (not_le.mpr harg.1)

/-- C1 witness: the amended theorem applied to the first two particles. -/
theorem C1_witness :
    ((globeParticles 600 400 (fun _ => 0) (fun _ => 0))[0]? =
      some (initParticle 600 400 (fun _ => 0) (fun _ => 0) 0)) ∧
    ((globeParticles 600 400 (fun _ => 0) (fun _ => 0))[1]? =
      some (initParticle 600 400 (fun _ => 0) (fun _ => 0) 1)) ∧
    (0:ℕ) < 1 ∧
    ((initParticle 600 400 (fun _ => 0) (fun _ => 0) 0).theta = 2 * Real.pi * (0:ℕ) / golden ∧
    (initParticle 600 400 (fun _ => 0) (fun _ => 0) 0).phi =
      Real.arccos (1 - 2 * (((0:ℕ):ℝ) + 0.5) / (POINT_COUNT:ℝ)) ∧
    (0 ≤ (initParticle 600 400 (fun _ => 0) (fun _ => 0) 0).phi ∧
      (initParticle 600 400 (fun _ => 0) (fun _ => 0) 0).phi ≤ Real.pi) ∧
    (0 < (initParticle 600 400 (fun _ => 0) (fun _ => 0) 0).phi ∧
      (initParticle 600 400 (fun _ => 0) (fun _ => 0) 0).phi < Real.pi) ∧
    (initParticle 600 400 (fun _ => 0) (fun _ => 0) 0).phi <
      (initParticle 600 400 (fun _ => 0) (fun _ => 0) 1).phi ∧
    ((initParticle 600 400 (fun _ => 0) (fun _ => 0) 0).theta,
      (initParticle 600 400 (fun _ => 0) (fun _ => 0) 0).phi) ≠
    ((initParticle 600 400 (fun _ => 0) (fun _ => 0) 1).theta,
      (initParticle 600 400 (fun _ => 0) (fun _ => 0) 1).phi)) := by
  have h0 : (globeParticles 600 400 (fun _ => 0) (fun _ => 0))[0]? =
      some (initParticle 600 400 (fun _ => 0) (fun _ => 0) 0) := by
    unfold globeParticles
    rw [List.getElem?_map, List.getElem?_range (by norm_num [POINT_COUNT])]
    rfl
  have h1 : (globeParticles 600 400 (fun _ => 0) (fun _ => 0))[1]? =
      some (initParticle 600 400 (fun _ => 0) (fun _ => 0) 1) := by
    unfold globeParticles
    rw [List.getElem?_map, List.getElem?_range (by norm_num [POINT_COUNT])]
    rfl
  exact ⟨h0, h1, by norm_num,
    C1_fibonacci_sphere 600 400 (fun _ => 0) (fun _ => 0) 0 1 _ _ h0 h1 (by norm_num)⟩

/-! ## The repulsion impulse -/

/-- `const dist = Math.sqrt(dx*dx + dy*dy)`: distance from the
particle's current position to the pointer. -/
def ptrDist (p : Particle) (mouseX mouseY : ℝ) : ℝ :=
  Real.sqrt ((p.x - mouseX) * (p.x - mouseX) + (p.y - mouseY) * (p.y - mouseY))

/-- Velocity change contributed by the repulsion phase. -/
def repelDelta (p : Particle) (mouseX mouseY : ℝ) (act : Bool) (rnd : ℝ) : ℝ × ℝ :=
  ((p.repel mouseX mouseY act rnd).vx - p.vx,
   (p.repel mouseX mouseY act rnd).vy - p.vy)

/-- Magnitude of the repulsion impulse. -/
def repelMag (p : Particle) (mouseX mouseY : ℝ) (act : Bool) (rnd : ℝ) : ℝ :=
  Real.sqrt ((repelDelta p mouseX mouseY act rnd).1 ^ 2 +
             (repelDelta p mouseX mouseY act rnd).2 ^ 2)

/-- Inside the radius (at positive distance) the repulsion branch fires
and adds the quadratic-falloff impulse along the jittered angle. -/
theorem repel_active (p : Particle) (mouseX mouseY rnd : ℝ)
    (h0 : 0 < ptrDist p mouseX mouseY) (hR : ptrDist p mouseX mouseY < MOUSE_RADIUS) :
    p.repel mouseX mouseY true rnd =
      { p with
          vx := p.vx + Real.cos (atan2 (p.y - mouseY) (p.x - mouseX) + (rnd - 0.5) * 0.5) *
            (((MOUSE_RADIUS - ptrDist p mouseX mouseY) / MOUSE_RADIUS) ^ 2 * REPEL_STRENGTH)
          vy := p.vy + Real.sin (atan2 (p.y - mouseY) (p.x - mouseX) + (rnd - 0.5) * 0.5) *
            (((MOUSE_RADIUS - ptrDist p mouseX mouseY) / MOUSE_RADIUS) ^ 2 * REPEL_STRENGTH) } := by
  unfold ptrDist at *
  simp only [Particle.repel, if_pos rfl]
  have hc : Real.sqrt ((p.x - mouseX) * (p.x - mouseX) + (p.y - mouseY) * (p.y - mouseY)) < MOUSE_RADIUS ∧
      Real.sqrt ((p.x - mouseX) * (p.x - mouseX) + (p.y - mouseY) * (p.y - mouseY)) > 0 := ⟨hR, h0⟩
  rw [if_pos hc, if_pos trivial]

/-- At or beyond the radius the repulsion branch does not fire. -/
theorem repel_far (p : Particle) (mouseX mouseY rnd : ℝ)
    (h : MOUSE_RADIUS ≤ ptrDist p mouseX mouseY) :
    p.repel mouseX mouseY true rnd = p := by
  unfold ptrDist at h
  simp only [Particle.repel, if_pos rfl]
  have hc : ¬ (Real.sqrt ((p.x - mouseX) * (p.x - mouseX) + (p.y - mouseY) * (p.y - mouseY)) < MOUSE_RADIUS ∧
      Real.sqrt ((p.x - mouseX) * (p.x - mouseX) + (p.y - mouseY) * (p.y - mouseY)) > 0) :=
    fun hcc => absurd hcc.1 (not_lt.mpr h)
  rw [if_neg hc, if_pos trivial]

/-- A vector of magnitude `F ≥ 0` along any angle has norm `F`. -/
theorem sqrt_cos_sin_sq (θ F : ℝ) (hF : 0 ≤ F) :
    Real.sqrt ((Real.cos θ * F) ^ 2 + (Real.sin θ * F) ^ 2) = F := by
  have h : (Real.cos θ * F) ^ 2 + (Real.sin θ * F) ^ 2 = F ^ 2 := by
    linear_combination F ^ 2 * Real.sin_sq_add_cos_sq θ
  rw [h, Real.sqrt_sq hF]

/-- C3: with the pointer active, the repulsion impulse has magnitude
`((MOUSE_RADIUS − d)/MOUSE_RADIUS)² · REPEL_STRENGTH` whenever the
distance `d` to the pointer lies in `(0, MOUSE_RADIUS)`; the magnitude is
strictly decreasing in the distance on that interval, is exactly zero at
and beyond the radius, and the falloff formula itself vanishes at
`d = MOUSE_RADIUS` (continuity at the boundary). -/
theorem C3_repulsion_profile (p q r : Particle) (mouseX mouseY rp rq rr : ℝ)
    (h0 : 0 < ptrDist p mouseX mouseY)
    (hpq : ptrDist p mouseX mouseY < ptrDist q mouseX mouseY)
    (hqR : ptrDist q mouseX mouseY < MOUSE_RADIUS)
    (hrR : MOUSE_RADIUS ≤ ptrDist r mouseX mouseY) :
    repelMag p mouseX mouseY true rp =
      ((MOUSE_RADIUS - ptrDist p mouseX mouseY) / MOUSE_RADIUS) ^ 2 * REPEL_STRENGTH ∧
    repelMag q mouseX mouseY true rq =
      ((MOUSE_RADIUS - ptrDist q mouseX mouseY) / MOUSE_RADIUS) ^ 2 * REPEL_STRENGTH ∧
    repelMag q mouseX mouseY true rq < repelMag p mouseX mouseY true rp ∧
    repelMag r mouseX mouseY true rr = 0 ∧
    ((MOUSE_RADIUS - MOUSE_RADIUS) / MOUSE_RADIUS) ^ 2 * REPEL_STRENGTH = 0 := by
  have hFp : (0:ℝ) ≤ ((MOUSE_RADIUS - ptrDist p mouseX mouseY) / MOUSE_RADIUS) ^ 2 * REPEL_STRENGTH := by
    unfold MOUSE_RADIUS REPEL_STRENGTH
    positivity
  have hFq : (0:ℝ) ≤ ((MOUSE_RADIUS - ptrDist q mouseX mouseY) / MOUSE_RADIUS) ^ 2 * REPEL_STRENGTH := by
    unfold MOUSE_RADIUS REPEL_STRENGTH
    positivity
  have hp : repelMag p mouseX mouseY true rp =
      ((MOUSE_RADIUS - ptrDist p mouseX mouseY) / MOUSE_RADIUS) ^ 2 * REPEL_STRENGTH := by
    unfold repelMag repelDelta
    rw [repel_active p mouseX mouseY rp h0 (lt_trans hpq hqR)]
    simp only [add_sub_cancel_left]
    exact sqrt_cos_sin_sq _ _ hFp
  have hq : repelMag q mouseX mouseY true rq =
      ((MOUSE_RADIUS - ptrDist q mouseX mouseY) / MOUSE_RADIUS) ^ 2 * REPEL_STRENGTH := by
    unfold repelMag repelDelta
    rw [repel_active q mouseX mouseY rq (lt_trans h0 hpq) hqR]
    simp only [add_sub_cancel_left]
    exact sqrt_cos_sin_sq _ _ hFq
  have hr : repelMag r mouseX mouseY true rr = 0 := by
    unfold repelMag repelDelta
    rw [repel_far r mouseX mouseY rr hrR]
    simp [Real.sqrt_zero]
  refine ⟨hp, hq, ?_, hr, by unfold MOUSE_RADIUS REPEL_STRENGTH; norm_num⟩
  rw [hp, hq]
  have h100 : MOUSE_RADIUS = (100:ℝ) := rfl
  have h25 : REPEL_STRENGTH = (25:ℝ) := rfl
  rw [h100] at hqR ⊢
  rw [h25]
  set d := ptrDist p mouseX mouseY
  set e := ptrDist q mouseX mouseY
  nlinarith [mul_pos (sub_pos.mpr hpq) (show (0:ℝ) < 200 - (d + e) by linarith)]

/-- A particle parked at `(x, y)` with every other field zeroed, used for
concrete witnesses. -/
def pAt (x y : ℝ) : Particle :=
  { theta := 0, phi := 0, char := '@', x := x, y := y, targetX := 0, targetY := 0,
    vx := 0, vy := 0, baseSize := 8, depth := 0, originalTheta := 0, originalPhi := 0 }

/-- Distance from `pAt x 0` to the origin pointer is `x` (for `0 ≤ x`). -/
theorem ptrDist_pAt (x : ℝ) (hx : 0 ≤ x) : ptrDist (pAt x 0) 0 0 = x := by
  unfold ptrDist pAt
  simp only
  rw [show (x - 0) * (x - 0) + ((0:ℝ) - 0) * (0 - 0) = x ^ 2 by ring, Real.sqrt_sq hx]

/-- C3 witness: particles at distances 60, 80 and 150 from the pointer. -/
theorem C3_witness :
    0 < ptrDist (pAt 60 0) 0 0 ∧
    ptrDist (pAt 60 0) 0 0 < ptrDist (pAt 80 0) 0 0 ∧
    ptrDist (pAt 80 0) 0 0 < MOUSE_RADIUS ∧
    MOUSE_RADIUS ≤ ptrDist (pAt 150 0) 0 0 ∧
    (repelMag (pAt 60 0) 0 0 true 0.3 =
      ((MOUSE_RADIUS - ptrDist (pAt 60 0) 0 0) / MOUSE_RADIUS) ^ 2 * REPEL_STRENGTH ∧
    repelMag (pAt 80 0) 0 0 true 0.7 =
      ((MOUSE_RADIUS - ptrDist (pAt 80 0) 0 0) / MOUSE_RADIUS) ^ 2 * REPEL_STRENGTH ∧
    repelMag (pAt 80 0) 0 0 true 0.7 < repelMag (pAt 60 0) 0 0 true 0.3 ∧
    repelMag (pAt 150 0) 0 0 true 0.1 = 0 ∧
    ((MOUSE_RADIUS - MOUSE_RADIUS) / MOUSE_RADIUS) ^ 2 * REPEL_STRENGTH = 0) := by
  have h60 := ptrDist_pAt 60 (by norm_num)
  have h80 := ptrDist_pAt 80 (by norm_num)
  have h150 := ptrDist_pAt 150 (by norm_num)
  have hMR : MOUSE_RADIUS = (100:ℝ) := rfl
  refine ⟨by rw [h60]; norm_num, by rw [h60, h80]; norm_num,
    by rw [h80, hMR]; norm_num, by rw [h150, hMR]; norm_num, ?_⟩
  exact C3_repulsion_profile (pAt 60 0) (pAt 80 0) (pAt 150 0) 0 0 0.3 0.7 0.1
    (by rw [h60]; norm_num) (by rw [h60, h80]; norm_num)
    (by rw [h80, hMR]; norm_num) (by rw [h150, hMR]; norm_num)

/-! ## Convergence of the spring/friction/integration iteration -/

/-- Any sequence obeying the code's velocity and position recurrences
(`v' = (v + (t - x)·RETURN_SPEED)·FRICTION`, `x' = x + v'`) has its
position converge to the target `t`: a quadratic Lyapunov function
contracts by the factor `FRICTION` each step. -/
theorem spring_damper_converges (t : ℝ) (x v : ℕ → ℝ)
    (hv : ∀ n, v (n + 1) = (v n + (t - x n) * RETURN_SPEED) * FRICTION)
    (hx : ∀ n, x (n + 1) = x n + v (n + 1)) (ε : ℝ) (hε : 0 < ε) :
    ∃ K, ∀ n ≥ K, |x n - t| < ε := by
  simp only [RETURN_SPEED, FRICTION] at hv
  set L : ℕ → ℝ := fun n => 0.0528*(x n - t)^2 + 0.0672*(x n - t)*(v n) + 0.88*(v n)^2 with hL
  have hstep : ∀ n, L (n + 1) = 0.88 * L n := by
    intro n
    simp only [hL]
    rw [hx n, hv n]
    ring
  have hgeom : ∀ n, L n = 0.88 ^ n * L 0 := by
    intro n
    induction n with
    | zero => simp
    | succ k ih => rw [hstep k, ih, pow_succ]; ring
  have hlow : ∀ n, 0.05 * (x n - t)^2 ≤ L n := by
    intro n
    simp only [hL]
    nlinarith [sq_nonneg (x n - t + 12 * v n), sq_nonneg (v n)]
  have hL0 : 0 ≤ L 0 := by
    simp only [hL]
    nlinarith [sq_nonneg (11 * (x 0 - t) + 7 * v 0), sq_nonneg (v 0)]
  obtain ⟨K, hK⟩ := exists_pow_lt_of_lt_one
    (show (0:ℝ) < 0.05 * ε ^ 2 / (L 0 + 1) by positivity)
    (show (0.88:ℝ) < 1 by norm_num)
  refine ⟨K, fun n hn => ?_⟩
  have hpow : (0.88:ℝ) ^ n ≤ 0.88 ^ K :=
    pow_le_pow_of_le_one (by norm_num) (by norm_num) hn
  have h1 : L n ≤ 0.88 ^ K * (L 0 + 1) := by
    rw [hgeom n]
    have h2 : (0.88:ℝ) ^ n * L 0 ≤ 0.88 ^ K * L 0 :=
      mul_le_mul_of_nonneg_right hpow hL0
    nlinarith [pow_nonneg (show (0:ℝ) ≤ 0.88 by norm_num) K]
  have h3 : (0.88:ℝ) ^ K * (L 0 + 1) < 0.05 * ε ^ 2 :=
    (lt_div_iff₀ (by positivity)).mp hK
  have h4 : (x n - t) ^ 2 < ε ^ 2 := by
    have := hlow n
    nlinarith
  exact abs_lt_of_sq_lt_sq h4 hε.le

/-- The repulsion-free steps never change the target fields. -/
theorem iterate_relax_target (p : Particle) (n : ℕ) :
    (Particle.relax^[n] p).targetX = p.targetX ∧
    (Particle.relax^[n] p).targetY = p.targetY := by
  induction n with
  | zero => exact ⟨rfl, rfl⟩
  | succ k ih => rw [Function.iterate_succ_apply']; exact ih

/-- The `relax` iterates satisfy the spring/friction/integration
recurrences on each axis. -/
theorem iterate_relax_recurrence (p : Particle) (n : ℕ) :
    (Particle.relax^[n + 1] p).vx =
      ((Particle.relax^[n] p).vx +
        (p.targetX - (Particle.relax^[n] p).x) * RETURN_SPEED) * FRICTION ∧
    (Particle.relax^[n + 1] p).x =
      (Particle.relax^[n] p).x + (Particle.relax^[n + 1] p).vx ∧
    (Particle.relax^[n + 1] p).vy =
      ((Particle.relax^[n] p).vy +
        (p.targetY - (Particle.relax^[n] p).y) * RETURN_SPEED) * FRICTION ∧
    (Particle.relax^[n + 1] p).y =
      (Particle.relax^[n] p).y + (Particle.relax^[n + 1] p).vy := by
  rw [Function.iterate_succ_apply', ← (iterate_relax_target p n).1,
    ← (iterate_relax_target p n).2]
  exact ⟨rfl, rfl, rfl, rfl⟩

/-- C5: with repulsion out of the picture, iterating the
spring → friction → integrate update drives the particle to its target:
for every positive ε there is a frame count K past which the distance
from the particle's position to its (fixed) target stays below ε. -/
theorem C5_spring_convergence (p : Particle) (ε : ℝ) (hε : 0 < ε) :
    ∃ K, ∀ n ≥ K,
      Real.sqrt (((Particle.relax^[n] p).x - p.targetX) ^ 2 +
                 ((Particle.relax^[n] p).y - p.targetY) ^ 2) < ε := by
  obtain ⟨Kx, hKx⟩ := spring_damper_converges p.targetX
    (fun n => (Particle.relax^[n] p).x) (fun n => (Particle.relax^[n] p).vx)
    (fun n => (iterate_relax_recurrence p n).1)
    (fun n => (iterate_relax_recurrence p n).2.1) (ε / 2) (by positivity)
  obtain ⟨Ky, hKy⟩ := spring_damper_converges p.targetY
    (fun n => (Particle.relax^[n] p).y) (fun n => (Particle.relax^[n] p).vy)
    (fun n => (iterate_relax_recurrence p n).2.2.1)
    (fun n => (iterate_relax_recurrence p n).2.2.2) (ε / 2) (by positivity)
  refine ⟨max Kx Ky, fun n hn => ?_⟩
  have hx := hKx n (le_trans (le_max_left _ _) hn)
  have hy := hKy n (le_trans (le_max_right _ _) hn)
  rw [Real.sqrt_lt' hε]
  have hx2 : ((Particle.relax^[n] p).x - p.targetX) ^ 2 < (ε / 2) ^ 2 := by
    nlinarith [sq_abs ((Particle.relax^[n] p).x - p.targetX),
      abs_nonneg ((Particle.relax^[n] p).x - p.targetX)]
  have hy2 : ((Particle.relax^[n] p).y - p.targetY) ^ 2 < (ε / 2) ^ 2 := by
    nlinarith [sq_abs ((Particle.relax^[n] p).y - p.targetY),
      abs_nonneg ((Particle.relax^[n] p).y - p.targetY)]
  nlinarith

/-- C5 witness: the convergence theorem applied to a concrete particle
and ε = 1. -/
theorem C5_witness :
    (0:ℝ) < 1 ∧
    ∃ K, ∀ n ≥ K,
      Real.sqrt (((Particle.relax^[n] (Particle.make 0 0 0 0)).x -
                    (Particle.make 0 0 0 0).targetX) ^ 2 +
                 ((Particle.relax^[n] (Particle.make 0 0 0 0)).y -
                    (Particle.make 0 0 0 0).targetY) ^ 2) < 1 :=
  ⟨by norm_num, C5_spring_convergence (Particle.make 0 0 0 0) 1 (by norm_num)⟩

/-! ## Noninterference of the target computation -/

/-- C10: the target position and depth written by `update` depend only on
the particle's angles, the rotation, and the viewport size — not on the
pointer state, the jitter draw, or the particle's current position and
velocity. -/
theorem C10_target_noninterference (p q : Particle) (rotationY width height : ℝ)
    (mx1 my1 mx2 my2 rnd1 rnd2 : ℝ) (act1 act2 : Bool)
    (hth : p.theta = q.theta) (hph : p.phi = q.phi) :
    (p.update rotationY width height mx1 my1 act1 rnd1).targetX =
      (q.update rotationY width height mx2 my2 act2 rnd2).targetX ∧
    (p.update rotationY width height mx1 my1 act1 rnd1).targetY =
      (q.update rotationY width height mx2 my2 act2 rnd2).targetY ∧
    (p.update rotationY width height mx1 my1 act1 rnd1).depth =
      (q.update rotationY width height mx2 my2 act2 rnd2).depth := by
  simp only [Particle.update]
  rw [hth, hph]
  exact ⟨rfl, rfl, rfl⟩

/-- C10 witness: two particles sharing angles but differing in position,
velocity and pointer state get the same target and depth. -/
theorem C10_witness :
    (Particle.make 1 2 0 0).theta = ({ Particle.make 1 2 3 0.5 with x := 7, vx := 4 } : Particle).theta ∧
    (Particle.make 1 2 0 0).phi = ({ Particle.make 1 2 3 0.5 with x := 7, vx := 4 } : Particle).phi ∧
    (((Particle.make 1 2 0 0).update 0.5 600 400 10 20 true 0.3).targetX =
      (({ Particle.make 1 2 3 0.5 with x := 7, vx := 4 } : Particle).update 0.5 600 400 50 60 false 0.9).targetX ∧
    ((Particle.make 1 2 0 0).update 0.5 600 400 10 20 true 0.3).targetY =
      (({ Particle.make 1 2 3 0.5 with x := 7, vx := 4 } : Particle).update 0.5 600 400 50 60 false 0.9).targetY ∧
    ((Particle.make 1 2 0 0).update 0.5 600 400 10 20 true 0.3).depth =
      (({ Particle.make 1 2 3 0.5 with x := 7, vx := 4 } : Particle).update 0.5 600 400 50 60 false 0.9).depth) :=
  ⟨rfl, rfl, C10_target_noninterference _ _ 0.5 600 400 10 20 50 60 0.3 0.9 true false rfl rfl⟩

/-! ## Draw order, shading, and initialization control flow -/

/-- A particle at the origin with a prescribed depth. -/
def pDepth (d : ℝ) : Particle := { pAt 0 0 with depth := d }

/-- C6: the depth sort is ascending while the front of the sphere has the
smaller depth, so on a concrete pair of visible particles the *nearer*
one (depth −50) is placed first and the *farther* one (depth 20) is
drawn after it — the farther particle paints over the nearer one,
contradicting the claimed painter's-algorithm occlusion (and the code's
own "back to front" comment). -/
theorem C6_draw_order_bug :
    sortByDepth [pDepth 20, pDepth (-50)] = [pDepth (-50), pDepth 20] ∧
    (pDepth (-50)).depth < (pDepth 20).depth ∧
    ((pDepth (-50)).draw).isSome ∧ ((pDepth 20).draw).isSome := by
  refine ⟨?_, by norm_num [pDepth, pAt], ?_, ?_⟩
  · unfold sortByDepth
    rw [List.mergeSort]
    have h : ¬ (pDepth 20).depth ≤ (pDepth (-50)).depth := by norm_num [pDepth, pAt]
    simp [List.splitInTwo, List.splitAt, List.splitAt.go, List.merge, h]
  · unfold Particle.draw
    rw [if_pos (by norm_num [pDepth, pAt] : (pDepth (-50)).depth < 30)]
    rfl
  · unfold Particle.draw
    rw [if_pos (by norm_num [pDepth, pAt] : (pDepth 20).depth < 30)]
    rfl

/-- C8 counterexample: two drawn particles with equal base size, one at
depth −100 (nearer the viewer) and one at depth 0 (farther): the nearer
particle is rendered *less* opaque and *smaller*, the opposite of the
claimed monotonicity. -/
theorem C8_shading_cex :
    (pDepth (-100)).depth < (pDepth 0).depth ∧
    ((pDepth (-100)).draw).isSome ∧ ((pDepth 0).draw).isSome ∧
    (pDepth (-100)).baseSize = (pDepth 0).baseSize ∧
    (pDepth (-100)).alpha < (pDepth 0).alpha ∧
    (pDepth (-100)).size < (pDepth 0).size := by
  refine ⟨by norm_num [pDepth, pAt], ?_, ?_, rfl, ?_, ?_⟩
  · unfold Particle.draw
    rw [if_pos (by norm_num [pDepth, pAt] : (pDepth (-100)).depth < 30)]
    rfl
  · unfold Particle.draw
    rw [if_pos (by norm_num [pDepth, pAt] : (pDepth 0).depth < 30)]
    rfl
  · unfold Particle.alpha Particle.normalizedDepth GLOBE_RADIUS pDepth pAt
    norm_num [max_def]
  · unfold Particle.size Particle.normalizedDepth GLOBE_RADIUS pDepth pAt
    norm_num

/-- C8 (amended): among drawn particles with depths in the sphere's range,
the particle *farther* from the viewer (larger depth) is rendered more
opaque and, at equal base size, larger; and at equal depth, greater
displacement from the target renders the particle (weakly) lighter and
less saturated. -/
theorem C8_shading_amended (p q r t : Particle)
    (hp : -GLOBE_RADIUS ≤ p.depth) (hpq : p.depth < q.depth) (hq : q.depth < 30)
    (hbs : p.baseSize = q.baseSize) (hb : 0 < p.baseSize)
    (hrt : r.depth = t.depth) (hd : r.displacement ≤ t.displacement) :
    ((p.draw).isSome ∧ (q.draw).isSome) ∧
    (p.alpha < q.alpha ∧ p.size < q.size) ∧
    (t.saturation ≤ r.saturation ∧ r.lightness ≤ t.lightness) := by
  have hR : GLOBE_RADIUS = (110:ℝ) := rfl
  rw [hR] at hp
  have hndp : p.normalizedDepth = (p.depth + 110) / 220 := by
    unfold Particle.normalizedDepth
    rw [hR]
    norm_num
  have hndq : q.normalizedDepth = (q.depth + 110) / 220 := by
    unfold Particle.normalizedDepth
    rw [hR]
    norm_num
  have hnd0 : 0 ≤ p.normalizedDepth := by rw [hndp]; linarith
  have hndlt : p.normalizedDepth < q.normalizedDepth := by rw [hndp, hndq]; linarith
  refine ⟨⟨?_, ?_⟩, ⟨?_, ?_⟩, ?_, ?_⟩
  · unfold Particle.draw
    rw [if_pos (lt_trans hpq hq)]
    rfl
  · unfold Particle.draw
    rw [if_pos hq]
    rfl
  · unfold Particle.alpha
    rw [max_eq_right (by nlinarith), max_eq_right (by nlinarith)]
    nlinarith
  · unfold Particle.size
    rw [← hbs]
    exact mul_lt_mul_of_pos_left (by nlinarith) hb
  · unfold Particle.saturation
    exact max_le_max le_rfl (by nlinarith)
  · unfold Particle.lightness
    have hnd : r.normalizedDepth = t.normalizedDepth := by
      unfold Particle.normalizedDepth
      rw [hrt]
    rw [hnd]
    exact min_le_min le_rfl (by nlinarith)

/-- C8 witness: the amended monotonicity applied to concrete particles. -/
theorem C8_witness :
    -GLOBE_RADIUS ≤ (pDepth (-100)).depth ∧
    (pDepth (-100)).depth < (pDepth 0).depth ∧ (pDepth 0).depth < 30 ∧
    (pDepth (-100)).baseSize = (pDepth 0).baseSize ∧ 0 < (pDepth (-100)).baseSize ∧
    (pAt 0 0).depth = (pAt 3 4).depth ∧
    (pAt 0 0).displacement ≤ (pAt 3 4).displacement ∧
    ((((pDepth (-100)).draw).isSome ∧ ((pDepth 0).draw).isSome) ∧
    ((pDepth (-100)).alpha < (pDepth 0).alpha ∧ (pDepth (-100)).size < (pDepth 0).size) ∧
    ((pAt 3 4).saturation ≤ (pAt 0 0).saturation ∧
      (pAt 0 0).lightness ≤ (pAt 3 4).lightness)) := by
  have hdisp : (pAt 0 0).displacement ≤ (pAt 3 4).displacement := by
    unfold Particle.displacement pAt
    exact Real.sqrt_le_sqrt (by norm_num)
  exact ⟨by norm_num [GLOBE_RADIUS, pDepth, pAt], by norm_num [pDepth, pAt],
    by norm_num [pDepth, pAt], rfl, by norm_num [pDepth, pAt], rfl, hdisp,
    C8_shading_amended (pDepth (-100)) (pDepth 0) (pAt 0 0) (pAt 3 4)
      (by norm_num [GLOBE_RADIUS, pDepth, pAt]) (by norm_num [pDepth, pAt])
      (by norm_num [pDepth, pAt]) rfl (by norm_num [pDepth, pAt]) rfl hdisp⟩

/-- C9: when the canvas and container exist but `getContext('2d')`
returned null, initialization *throws* (at `ctx.scale` inside `init`)
instead of silently no-oping; the zero-width fallback to the default
width 600 does hold when the context is present. -/
theorem C9_missing_ctx_throws :
    initGlobe { canvasPresent := true, ctxPresent := false, containerPresent := true,
                containerWidth := 500, innerHeight := 800 } (fun _ => 0) (fun _ => 0) =
      InitOutcome.threw ∧
    initGlobe { canvasPresent := true, ctxPresent := true, containerPresent := true,
                containerWidth := 0, innerHeight := 800 } (fun _ => 0) (fun _ => 0) =
      InitOutcome.ok 600 400 (globeParticles 600 400 (fun _ => 0) (fun _ => 0)) := by
  constructor
  · unfold initGlobe
    norm_num
  · unfold initGlobe
    norm_num

end

end AsciiGlobe
